import Mathlib

/-!
Verification of the INSEE API client (`agent_insee_project`): a shallow
embedding in Lean of the token manager, the BDM series fetcher and parser
(`insee_api.py`), and the RAG helpers (`rag_agent.py`), together with
theorems about their behaviour.

Python-level semantics that matter here (truthiness, `dict.get`, the `or`
operator, `is not None`) are modelled explicitly on a `PyVal` type of
decoded-JSON / Python values.
-/

/-- Python values as decoded from JSON by the `requests` library.
JSON `null` decodes to Python `None`; a `dict.get` on an absent key also
returns `None`; both are `PyVal.none` here. -/
inductive PyVal : Type where
  | none : PyVal
  | bool (b : Bool) : PyVal
  | num (q : Rat) : PyVal
  | str (s : String) : PyVal
  | list (xs : List PyVal) : PyVal
  | dict (fields : List (String × PyVal)) : PyVal
deriving Repr

/-- Python truthiness: `None`, `False`, `0`, `""`, `[]`, `{}` are falsy. -/
def PyVal.truthy : PyVal → Bool
  | .none => false
  | .bool b => b
  | .num q => decide (q ≠ 0)
  | .str s => decide (s ≠ "")
  | .list xs => !xs.isEmpty
  | .dict fs => !fs.isEmpty

/-- Python `d.get(k, default)`: the stored value when the key is present
(even when that value is `None`), the default otherwise. Non-dicts have no
`get`; the code only calls it on decoded JSON objects. -/
def PyVal.getD (v : PyVal) (k : String) (d : PyVal) : PyVal :=
  match v with
  | .dict fs =>
    match fs.lookup k with
    | some w => w
    | Option.none => d
  | _ => d

/-- Python `d.get(k)`, i.e. `d.get(k, None)`. -/
def PyVal.get (v : PyVal) (k : String) : PyVal :=
  v.getD k PyVal.none

/-- Python's `a or b`: `a` when `a` is truthy, else `b`. -/
def pyOr (a b : PyVal) : PyVal :=
  if a.truthy then a else b

/-- Whether a decoded JSON object carries key `k`. -/
def PyVal.hasKey (v : PyVal) (k : String) : Bool :=
  match v with
  | .dict fs => (fs.lookup k).isSome
  | _ => false

/-- Iterating a Python value as a list. The parsing code iterates
`data.get("series", [])` and `serie.get("values", [])`; the shapes the
claims exercise are lists or the `[]` default, modelled here. -/
def PyVal.asList : PyVal → List PyVal
  | .list xs => xs
  | _ => []

/-- One record appended by `get_bdm_series`:
`{"idbank": idbank, "date": date, "value": value}`. -/
structure ObsRecord where
  idbank : PyVal
  date : PyVal
  value : PyVal
deriving Repr

/-- The per-observation extraction in `get_bdm_series` (insee_api.py,
lines 180-187): `date`/`value` start as `None`; a dict observation sets
`date = obs.get("date") or obs.get("time")` and `value = obs.get("value")`;
a list observation of length >= 2 sets `date, value = obs[0], obs[1]`. -/
def obsDateValue : PyVal → PyVal × PyVal
  | .dict fs =>
    (pyOr ((PyVal.dict fs).get "date") ((PyVal.dict fs).get "time"),
     (PyVal.dict fs).get "value")
  | .list xs =>
    if 2 ≤ xs.length then (xs.getD 0 PyVal.none, xs.getD 1 PyVal.none)
    else (PyVal.none, PyVal.none)
  | _ => (PyVal.none, PyVal.none)

/-- The per-series loop body of `get_bdm_series` (lines 175-189):
`idbank = serie.get("idBank")`, `observations = serie.get("values", [])`,
and for each observation a record is appended iff the extracted date
`is not None`. -/
def seriesRecords (serie : PyVal) : List ObsRecord :=
  let idbank := serie.get "idBank"
  let observations := (serie.getD "values" (PyVal.list [])).asList
  observations.filterMap fun obs =>
    let dv := obsDateValue obs
    match dv.1 with
    | PyVal.none => Option.none
    | d => some { idbank := idbank, date := d, value := dv.2 }

/-- The response-parsing stage of `get_bdm_series` (lines 173-191):
`series_list = data.get("series", [])`, then the nested loops building
`records` in encounter order. -/
def get_bdm_series_parse (data : PyVal) : List ObsRecord :=
  ((data.getD "series" (PyVal.list [])).asList).flatMap seriesRecords

/-- A one-series response body with the given idbank and observations,
used to state per-observation facts about the parser. -/
def mkSerie (idbank : PyVal) (obs : List PyVal) : PyVal :=
  PyVal.dict [("idBank", idbank), ("values", PyVal.list obs)]

/-- The response of the spec's worked example:
`{"series":[{"idBank":"X","values":[{"date":"2020-01","value":1.5},["2020-02",null]]}]}`. -/
def exampleResponse : PyVal :=
  PyVal.dict [("series", PyVal.list [
    PyVal.dict [("idBank", PyVal.str "X"),
                ("values", PyVal.list [
                  PyVal.dict [("date", PyVal.str "2020-01"),
                              ("value", PyVal.num 1.5)],
                  PyVal.list [PyVal.str "2020-02", PyVal.none]])]])]

/-- A one-observation series whose observation has both `date` and `time`
present but falsy (empty strings) and a value of 1. -/
def falsyTimeSerie : PyVal :=
  mkSerie (PyVal.str "X")
    [PyVal.dict [("date", PyVal.str ""), ("time", PyVal.str ""),
                 ("value", PyVal.num 1)]]

/-! ## Token manager (`InseeAPI._obtain_token` / `InseeAPI.get_token`) -/

/-- Truthiness of a Python `Optional[str]`: falsy iff `None` or `""`. -/
def optStrTruthy : Option String → Bool
  | some s => decide (s ≠ "")
  | Option.none => false

/-- The token-relevant mutable state of an `InseeAPI` instance:
`self._access_token` (an `Optional[str]`) and `self._token_expiry`
(a float, modelled as `Rat`; initialised to `0.0`). -/
structure TokenState where
  access_token : Option String
  token_expiry : Rat
deriving Repr, DecidableEq

/-- The decoded JSON body of a successful authentication response.
`access_token = Option.none` models a body whose `access_token` is absent
or null (`data.get("access_token")` returns `None` in both cases);
`expires_in = Option.none` models a body omitting `expires_in`. -/
structure TokenResponse where
  access_token : Option String
  expires_in : Option Rat
deriving Repr, DecidableEq

/-- `InseeAPI._obtain_token` (insee_api.py, lines 62-77) after a 2xx
authentication response `resp` at wall-clock time `now`: stores
`data.get("access_token")` and `time.time() + float(data.get("expires_in", 3600))`. -/
def obtain_token (now : Rat) (resp : TokenResponse) : TokenState :=
  { access_token := resp.access_token,
    token_expiry := now + resp.expires_in.getD 3600 }

/-- The refresh condition of `InseeAPI.get_token` (line 85):
`not self._access_token or time.time() >= self._token_expiry`. -/
def needs_refresh (now : Rat) (st : TokenState) : Bool :=
  !optStrTruthy st.access_token || decide (st.token_expiry ≤ now)

/-- `InseeAPI.get_token` (lines 79-88) at wall-clock time `now`, where
`resp` is the authentication response the network would deliver if a token
exchange happens. The result carries the returned token, the post-call
state, and whether an exchange was performed; `Option.none` models the
`assert self._access_token is not None` failing (AssertionError). -/
def get_token (now : Rat) (resp : TokenResponse) (st : TokenState) :
    Option (String × TokenState × Bool) :=
  let refreshed := needs_refresh now st
  let st2 := if refreshed then obtain_token now resp else st
  match st2.access_token with
  | some t => some (t, st2, refreshed)
  | Option.none => Option.none

/-! ## Client construction (`InseeAPI.__init__`) -/

/-- Python's `a or b` on `Optional[str]` operands, as in
`client_id or os.getenv("INSEE_CLIENT_ID")`. -/
def pyOrOptStr (a b : Option String) : Option String :=
  match a with
  | some s => if s = "" then b else some s
  | Option.none => b

/-- Python `str.strip()` with no argument: remove leading and trailing
whitespace. Modelled on the character list so that it computes inside the
kernel. -/
def pyStrip (s : String) : String :=
  String.mk (((s.data.dropWhile Char.isWhitespace).reverse.dropWhile
    Char.isWhitespace).reverse)

/-- Python `str.rstrip("/")`: remove trailing slash characters, as
`__init__` does on `base_url`. -/
def pyRstripSlash (s : String) : String :=
  String.mk ((s.data.reverse.dropWhile (fun c => c == '/')).reverse)

/-- The configuration a successfully constructed `InseeAPI` holds. -/
structure InseeConfig where
  client_id : String
  client_secret : String
  base_url : String
deriving Repr, DecidableEq

/-- `InseeAPI.__init__` (insee_api.py, lines 46-60): resolve each
credential as `explicit or environment`, strip trailing `/` from
`base_url`, then raise `ValueError` (modelled by `Option.none`) when
`not self.client_id or not self.client_secret`. -/
def insee_init (client_id client_secret env_id env_secret : Option String)
    (base_url : String) : Option InseeConfig :=
  let cid := pyOrOptStr client_id env_id
  let cs := pyOrOptStr client_secret env_secret
  if optStrTruthy cid && optStrTruthy cs then
    some { client_id := cid.getD "", client_secret := cs.getD "",
           base_url := pyRstripSlash base_url }
  else Option.none

/-! ## Series request construction (`get_bdm_series`, pre-network part) -/

/-- The `idbanks` argument of `get_bdm_series`: a single string, or a
list/tuple of strings (a Python `set` is also accepted by the code but its
iteration order is unspecified; it is not modelled). -/
inductive IdArg where
  | single (s : String)
  | many (xs : List String)
deriving Repr, DecidableEq

/-- The `ids` string of `get_bdm_series` (lines 140-145): for a
collection, strip each element, drop the ones that strip to empty, and
join with `+`; for a single string, just strip it. -/
def buildIds : IdArg → String
  | .single s => pyStrip s
  | .many xs => String.intercalate "+" ((xs.map pyStrip).filter (fun s => decide (s ≠ "")))

/-- The HTTP GET request `get_bdm_series` is about to issue: endpoint path
and query parameters. -/
structure SeriesRequest where
  path : String
  params : List (String × String)
deriving Repr, DecidableEq

/-- The pre-network part of `get_bdm_series` (insee_api.py, lines
139-161): validate `idbanks` and assemble endpoint and query parameters.
`Option.none` models the `ValueError` raised when `ids` is empty; it is
raised before `self.get_token()` (line 163) and before `requests.get`
(line 164), so no token request and no series request happens.
Each `if param:` guard is Python truthiness, so `None`, `""` and `0` all
omit the parameter. -/
def get_bdm_series_request (base_url : String) (idbanks : IdArg)
    (start_period : Option String) (last_n_observations : Option Int)
    (detail : Option String) (include_history : Bool)
    (updated_after : Option String) : Option SeriesRequest :=
  let ids := buildIds idbanks
  if ids = "" then Option.none
  else
    let params : List (String × String) :=
      (match start_period with
       | some s => if s = "" then [] else [("startPeriod", s)]
       | Option.none => []) ++
      (match last_n_observations with
       | some n => if n = 0 then [] else [("lastNObservations", toString n)]
       | Option.none => []) ++
      (match detail with
       | some s => if s = "" then [] else [("detail", s)]
       | Option.none => []) ++
      (if include_history then [("includeHistory", "true")] else []) ++
      (match updated_after with
       | some s => if s = "" then [] else [("updatedAfter", s)]
       | Option.none => [])
    some { path := base_url ++ "/series/data/SERIES_BDM/" ++ ids, params := params }

/-! ## Series response handling (`get_bdm_series`, post-network part) -/

/-- `requests.Response.raise_for_status`: raises `HTTPError` exactly for
client-error (4xx) and server-error (5xx) status codes. -/
def raise_for_status (status : Nat) : Bool :=
  decide (400 ≤ status ∧ status < 600)

/-- The post-network part of `get_bdm_series` (lines 164-192): propagate
an HTTP error status (`.error status` models the raised
`requests.HTTPError`), otherwise parse the decoded JSON body into the
record list used to build the `pandas.DataFrame`. -/
def get_bdm_series_fetch (status : Nat) (body : PyVal) :
    Except Nat (List ObsRecord) :=
  if raise_for_status status then Except.error status
  else Except.ok (get_bdm_series_parse body)

/-! ## RAG helpers (`rag_agent.py`) -/

/-- The fixed message `dataframe_to_context` returns on an empty
DataFrame. -/
def emptyDatasetMsg : String := "Le jeu de données est vide."

/-- `dataframe_to_context` (rag_agent.py, lines 24-48). A DataFrame is
modelled as its row list; `df.head(max_rows)` is `df.take max_rows`.
Rendering is external (pandas): `render` models `to_string(index=False)`,
returning `Option.none` when it raises, and `to_str` models the `str(...)`
fallback of the `except` branch. -/
def dataframe_to_context (render : List ObsRecord → Option String)
    (to_str : List ObsRecord → String)
    (df : List ObsRecord) (max_rows : Nat) : String :=
  if df.isEmpty then emptyDatasetMsg
  else
    match render (df.take max_rows) with
    | some s => s
    | Option.none => to_str (df.take max_rows)

/-- The message returned when the `openai` package is not importable. -/
def libMissingMsg : String :=
  "Le package openai n'est pas installé. Veuillez l'ajouter aux dépendances."

/-- The message returned when `OPENAI_API_KEY` is unset or empty. -/
def keyMissingMsg : String :=
  "Aucune clé OPENAI_API_KEY trouvée. Définissez cette variable d'environnement dans votre système ou dans Streamlit."

/-- One entry of the `messages` list sent to the chat API. -/
structure ChatMessage where
  role : String
  content : String
deriving Repr, DecidableEq

/-- The outcome of `openai.ChatCompletion.create(...)` together with the
extraction `response.choices[0].message.get("content", "")`, both of which
run inside the `try` block: `success` carries the extracted content of the
first choice, `failure` carries `str(exc)` for whatever exception the call
or the extraction raised. -/
inductive ChatOutcome where
  | success (content : String)
  | failure (exc_msg : String)
deriving Repr, DecidableEq

/-- `ask_question` (rag_agent.py, lines 51-107). `openai_installed` models
whether `import openai` succeeded; `api_key` models
`os.getenv("OPENAI_API_KEY")`; `chat` models the network call, taking the
model name, the messages, the temperature and `max_tokens`. The guards
return their diagnostic strings before `chat` is consulted, and the
`try/except` turns any call failure into a diagnostic string: the function
always returns a string. -/
def ask_question (render : List ObsRecord → Option String)
    (to_str : List ObsRecord → String)
    (openai_installed : Bool) (api_key : Option String)
    (chat : String → List ChatMessage → Rat → Nat → ChatOutcome)
    (df : List ObsRecord) (question : String) (model : String)
    (temperature : Rat) : String :=
  if !openai_installed then libMissingMsg
  else if !optStrTruthy api_key then keyMissingMsg
  else
    let context := dataframe_to_context render to_str df 5
    let messages : List ChatMessage :=
      [{ role := "system",
         content := "Tu es un assistant qui répond aux questions sur des données de l'INSEE en utilisant les informations fournies dans le contexte. Réponds en français de façon concise et claire." },
       { role := "user",
         content := "Contexte des données:\n" ++ context ++ "\n\nQuestion:\n" ++ question }]
    match chat model messages temperature 256 with
    | .success content => pyStrip content
    | .failure exc => "Erreur lors de l'appel à l'API OpenAI : " ++ exc

/-! ## Helper lemmas -/

/-- Evaluating the per-series loop on a one-series body built by `mkSerie`. -/
theorem seriesRecords_mkSerie (id : PyVal) (obs : List PyVal) :
    seriesRecords (mkSerie id obs) =
      obs.filterMap (fun o =>
        match (obsDateValue o).1 with
        | PyVal.none => Option.none
        | d => some { idbank := id, date := d, value := (obsDateValue o).2 }) :=
  rfl

/-- A record survives the `if date is not None` test iff the extracted
date is not `PyVal.none`. -/
theorem filterMap_obs_single (id : PyVal) (o : PyVal) (d : PyVal)
    (hd : (obsDateValue o).1 = d) (hne : d ≠ PyVal.none) :
    seriesRecords (mkSerie id [o]) =
      [{ idbank := id, date := d, value := (obsDateValue o).2 }] := by
  rw [seriesRecords_mkSerie]
  simp only [List.filterMap_cons, List.filterMap_nil, hd]

/-- An observation whose extracted date is `None` is dropped. -/
theorem filterMap_obs_single_none (id : PyVal) (o : PyVal)
    (hd : (obsDateValue o).1 = PyVal.none) :
    seriesRecords (mkSerie id [o]) = [] := by
  rw [seriesRecords_mkSerie]
  simp only [List.filterMap_cons, List.filterMap_nil, hd]

/-! ## Claim theorems -/

/-- C1: the worked-example response parses to exactly the two records
`{idbank:"X", date:"2020-01", value:1.5}` and
`{idbank:"X", date:"2020-02", value:null}` in encounter order; in general
a structured-object observation yields (date-or-time field, value field),
a positional pair yields (first element, second element), an observation
whose extracted date is absent yields no record, and an observation with a
present (truthy) date but absent value yields a record with a null value. -/
theorem get_bdm_series_parse_spec :
    (get_bdm_series_parse exampleResponse =
      [{ idbank := PyVal.str "X", date := PyVal.str "2020-01", value := PyVal.num 1.5 },
       { idbank := PyVal.str "X", date := PyVal.str "2020-02", value := PyVal.none }])
  ∧ (∀ id fs, pyOr ((PyVal.dict fs).get "date") ((PyVal.dict fs).get "time") ≠ PyVal.none →
       seriesRecords (mkSerie id [PyVal.dict fs]) =
         [{ idbank := id,
            date := pyOr ((PyVal.dict fs).get "date") ((PyVal.dict fs).get "time"),
            value := (PyVal.dict fs).get "value" }])
  ∧ (∀ id fs, pyOr ((PyVal.dict fs).get "date") ((PyVal.dict fs).get "time") = PyVal.none →
       seriesRecords (mkSerie id [PyVal.dict fs]) = [])
  ∧ (∀ id d v, d ≠ PyVal.none →
       seriesRecords (mkSerie id [PyVal.list [d, v]]) =
         [{ idbank := id, date := d, value := v }])
  ∧ (∀ id v, seriesRecords (mkSerie id [PyVal.list [PyVal.none, v]]) = [])
  ∧ (∀ id d, d.truthy = true →
       seriesRecords (mkSerie id [PyVal.dict [("date", d)]]) =
         [{ idbank := id, date := d, value := PyVal.none }]) := by
  refine ⟨rfl, ?_, ?_, ?_, ?_, ?_⟩
  · intro id fs hne
    exact filterMap_obs_single id (PyVal.dict fs) _ rfl hne
  · intro id fs hnone
    exact filterMap_obs_single_none id (PyVal.dict fs) hnone
  · intro id d v hne
    exact filterMap_obs_single id (PyVal.list [d, v]) d rfl hne
  · intro id v
    exact filterMap_obs_single_none id (PyVal.list [PyVal.none, v]) rfl
  · intro id d htr
    have hdate : (PyVal.dict [("date", d)]).get "date" = d := rfl
    have hne : pyOr ((PyVal.dict [("date", d)]).get "date")
        ((PyVal.dict [("date", d)]).get "time") = d := by
      rw [hdate]
      simp [pyOr, htr]
    refine filterMap_obs_single id (PyVal.dict [("date", d)]) d ?_ ?_
    · simpa [obsDateValue] using hne
    · intro h
      rw [h] at htr
      simp [PyVal.truthy] at htr

/-- C1 witness: the positional-pair case at a concrete observation. -/
theorem get_bdm_series_parse_spec_witness :
    seriesRecords (mkSerie (PyVal.str "A") [PyVal.list [PyVal.str "2021", PyVal.num 2]]) =
      [{ idbank := PyVal.str "A", date := PyVal.str "2021", value := PyVal.num 2 }] :=
  get_bdm_series_parse_spec.2.2.2.1 (PyVal.str "A") (PyVal.str "2021") (PyVal.num 2)
    (fun h => PyVal.noConfusion h)

/-- C2: when a non-empty token string is held and the call time is
strictly before the stored expiry, `get_token` returns it unchanged with
no token exchange; otherwise exactly one exchange happens and the new
stored expiry is the call time plus the response's `expires_in`,
defaulting to 3600 when omitted (the `getD 3600`). -/
theorem get_token_spec (now : Rat) (resp : TokenResponse) (st : TokenState) :
    (∀ t, st.access_token = some t → t ≠ "" → now < st.token_expiry →
       get_token now resp st = some (t, st, false))
  ∧ (¬ (∃ t, st.access_token = some t ∧ t ≠ "" ∧ now < st.token_expiry) →
       ∀ tok, resp.access_token = some tok →
         get_token now resp st =
           some (tok,
             { access_token := some tok,
               token_expiry := now + resp.expires_in.getD 3600 }, true)) := by
  constructor
  · intro t ht hne hlt
    have href : needs_refresh now st = false := by
      simp [needs_refresh, optStrTruthy, ht, hne, not_le.mpr hlt]
    simp [get_token, href, ht]
  · intro hno tok htok
    have href : needs_refresh now st = true := by
      cases hb : needs_refresh now st with
      | true => rfl
      | false =>
        exfalso
        have hb' := hb
        simp only [needs_refresh, Bool.or_eq_false_iff, Bool.not_eq_false',
          decide_eq_false_iff_not, not_le] at hb'
        obtain ⟨h1, h2⟩ := hb'
        cases hst : st.access_token with
        | none => rw [hst] at h1; simp [optStrTruthy] at h1
        | some s =>
          rw [hst] at h1
          have hsne : s ≠ "" := by
            simpa [optStrTruthy] using h1
          exact hno ⟨s, hst, hsne, h2⟩
    simp [get_token, href, obtain_token, htok]

/-- C2 witness: a held token `"tok"` with expiry 20 is returned unchanged
at time 10 with no exchange. -/
theorem get_token_spec_witness :
    get_token 10 { access_token := some "new", expires_in := some 100 }
        { access_token := some "tok", token_expiry := 20 } =
      some ("tok", { access_token := some "tok", token_expiry := 20 }, false) :=
  (get_token_spec 10 { access_token := some "new", expires_in := some 100 }
      { access_token := some "tok", token_expiry := 20 }).1 "tok" rfl
    (by decide) (by norm_num)

/-- C3: `InseeAPI` construction fails with `ValueError` exactly when a
resolved credential is missing or empty, and succeeds when both resolve to
non-empty strings. -/
theorem insee_init_spec (cid cs env_id env_secret : Option String) (base : String) :
    ((pyOrOptStr cid env_id = Option.none ∨ pyOrOptStr cid env_id = some "" ∨
      pyOrOptStr cs env_secret = Option.none ∨ pyOrOptStr cs env_secret = some "") →
        insee_init cid cs env_id env_secret base = Option.none)
  ∧ (∀ i s, pyOrOptStr cid env_id = some i → i ≠ "" →
       pyOrOptStr cs env_secret = some s → s ≠ "" →
       insee_init cid cs env_id env_secret base =
         some { client_id := i, client_secret := s,
                base_url := pyRstripSlash base }) := by
  constructor
  · intro h
    rcases h with h | h | h | h <;> simp [insee_init, h, optStrTruthy]
  · intro i s hi hine hs hsne
    simp [insee_init, hi, hs, optStrTruthy, hine, hsne]

/-- C3 witness: an explicit client id plus an environment-sourced secret,
both non-empty, construct successfully (with the trailing `/` stripped). -/
theorem insee_init_spec_witness :
    insee_init (some "id1") Option.none Option.none (some "sec") "https://api.insee.fr/" =
      some { client_id := "id1", client_secret := "sec",
             base_url := "https://api.insee.fr" } :=
  ((insee_init_spec (some "id1") Option.none Option.none (some "sec")
      "https://api.insee.fr/").2 "id1" "sec" rfl (by decide) rfl (by decide)).trans
    (by decide)

/-- C4: an identifiers argument whose elements all trim to empty (hence
also the empty collection, and a single blank string) makes
`get_bdm_series` raise `ValueError` before a request is built, so no
token request and no series request is issued. -/
theorem get_bdm_series_empty_ids_spec (base : String) (sp : Option String)
    (ln : Option Int) (det : Option String) (ih : Bool) (ua : Option String) :
    (∀ xs : List String, (∀ x ∈ xs, pyStrip x = "") →
       get_bdm_series_request base (.many xs) sp ln det ih ua = Option.none)
  ∧ (∀ s : String, pyStrip s = "" →
       get_bdm_series_request base (.single s) sp ln det ih ua = Option.none) := by
  constructor
  · intro xs h
    have hfil : ((xs.map pyStrip).filter (fun s => decide (s ≠ ""))) = [] := by
      rw [List.filter_eq_nil_iff]
      intro a ha
      obtain ⟨x, hx, rfl⟩ := List.mem_map.mp ha
      simp [h x hx]
    have hids : buildIds (.many xs) = "" := by
      simp only [buildIds]
      rw [hfil]
      rfl
    simp [get_bdm_series_request, hids]
  · intro s h
    simp [get_bdm_series_request, buildIds, h]

/-- C4 witness: `["", "  "]` fails before any request is built. -/
theorem get_bdm_series_empty_ids_spec_witness :
    get_bdm_series_request "https://api.insee.fr" (.many ["", "  "])
      Option.none Option.none Option.none false Option.none = Option.none :=
  (get_bdm_series_empty_ids_spec "https://api.insee.fr" Option.none Option.none
      Option.none false Option.none).1 ["", "  "] (by decide)

/-- C5: `ask_question` never propagates an error: with the library
unavailable it returns the "library not installed" message; with no
credential it returns the "missing credential" message, independently of
the network (the result is the same for every `chat` oracle, so no call is
issued); if the underlying call raises, it returns a diagnostic string
containing the error's description; only on success does it return the
stripped content of the first choice. -/
theorem ask_question_spec (render : List ObsRecord → Option String)
    (to_str : List ObsRecord → String) (key : Option String)
    (chat : String → List ChatMessage → Rat → Nat → ChatOutcome)
    (df : List ObsRecord) (question model : String) (temperature : Rat)
    (e c : String) :
    (ask_question render to_str false key chat df question model temperature =
       libMissingMsg)
  ∧ (optStrTruthy key = false →
       ask_question render to_str true key chat df question model temperature =
         keyMissingMsg)
  ∧ (optStrTruthy key = true →
       ask_question render to_str true key (fun _ _ _ _ => ChatOutcome.failure e)
           df question model temperature =
         "Erreur lors de l'appel à l'API OpenAI : " ++ e)
  ∧ (optStrTruthy key = true →
       ask_question render to_str true key (fun _ _ _ _ => ChatOutcome.success c)
           df question model temperature =
         pyStrip c) := by
  refine ⟨rfl, ?_, ?_, ?_⟩
  · intro hk
    simp [ask_question, hk]
  · intro hk
    simp [ask_question, hk]
  · intro hk
    simp [ask_question, hk]

/-- C5 witness: a failing call with a configured key returns the
diagnostic string embedding the error text. -/
theorem ask_question_spec_witness :
    ask_question (fun _ => Option.none) (fun _ => "ctx") true (some "sk-key")
        (fun _ _ _ _ => ChatOutcome.failure "quota exceeded") [] "q" "gpt-3.5-turbo"
        (1/5) =
      "Erreur lors de l'appel à l'API OpenAI : quota exceeded" :=
  (ask_question_spec (fun _ => Option.none) (fun _ => "ctx") (some "sk-key")
      (fun _ _ _ _ => ChatOutcome.failure "quota exceeded") [] "q" "gpt-3.5-turbo"
      (1/5) "quota exceeded" "unused").2.2.1 (by decide)

/-- C6: a 2xx response whose JSON body lacks the top-level `series` list
yields an empty record set (hence an empty DataFrame) rather than an
error, while an HTTP error status is propagated as an `HTTPError`. -/
theorem get_bdm_series_http_spec (status : Nat) (body : PyVal) :
    (200 ≤ status → status < 300 → body.hasKey "series" = false →
       get_bdm_series_fetch status body = Except.ok [])
  ∧ (400 ≤ status → status < 600 →
       get_bdm_series_fetch status body = Except.error status) := by
  constructor
  · intro h2 h3 hk
    have hrs : raise_for_status status = false := by
      simp [raise_for_status]
      omega
    have hget : body.getD "series" (PyVal.list []) = PyVal.list [] := by
      cases body with
      | dict fs =>
        simp only [PyVal.getD]
        cases hl : fs.lookup "series" with
        | none => rfl
        | some w =>
          exfalso
          have hk' : (fs.lookup "series").isSome = false := hk
          rw [hl] at hk'
          exact Bool.noConfusion hk'
      | none => rfl
      | bool b => rfl
      | num q => rfl
      | str s => rfl
      | list xs => rfl
    simp [get_bdm_series_fetch, hrs, get_bdm_series_parse, hget, PyVal.asList]
  · intro h4 h6
    have hrs : raise_for_status status = true := by
      simp [raise_for_status]
      omega
    simp [get_bdm_series_fetch, hrs]

/-- C6 witness: a 200 response with body `{}` yields the empty record
set. -/
theorem get_bdm_series_http_spec_witness :
    get_bdm_series_fetch 200 (PyVal.dict []) = Except.ok [] :=
  (get_bdm_series_http_spec 200 (PyVal.dict [])).1 (by decide) (by decide) rfl

/-- C7: the request path embeds the identifiers joined with `+`: every
built request's path is the base url, the fixed series segment, and the
joined identifiers; `["001688406", "010000001"]` joins to
`001688406+010000001`, and the resulting path contains that substring. -/
theorem series_path_join_spec (base : String) (sp : Option String)
    (ln : Option Int) (det : Option String) (ih : Bool) (ua : Option String) :
    (∀ arg req, get_bdm_series_request base arg sp ln det ih ua = some req →
       req.path = base ++ "/series/data/SERIES_BDM/" ++ buildIds arg)
  ∧ (buildIds (.many ["001688406", "010000001"]) = "001688406+010000001")
  ∧ (∀ req, get_bdm_series_request base (.many ["001688406", "010000001"])
        sp ln det ih ua = some req →
       ∃ pre post, req.path = pre ++ "001688406+010000001" ++ post) := by
  have hpath : ∀ arg req, get_bdm_series_request base arg sp ln det ih ua = some req →
      req.path = base ++ "/series/data/SERIES_BDM/" ++ buildIds arg := by
    intro arg req hreq
    by_cases hids : buildIds arg = ""
    · simp [get_bdm_series_request, hids] at hreq
    · simp only [get_bdm_series_request] at hreq
      rw [if_neg hids] at hreq
      injection hreq with h
      rw [← h]
  have hjoin : buildIds (.many ["001688406", "010000001"]) = "001688406+010000001" := by
    decide
  refine ⟨hpath, hjoin, ?_⟩
  intro req hreq
  refine ⟨base ++ "/series/data/SERIES_BDM/", "", ?_⟩
  rw [hpath _ req hreq, hjoin]
  simp

/-- C7 witness: the two-identifier request against the default base url
has a path containing `001688406+010000001`. -/
theorem series_path_join_spec_witness :
    ∃ pre post,
      ({ path := "https://api.insee.fr/series/data/SERIES_BDM/001688406+010000001",
         params := [] } : SeriesRequest).path = pre ++ "001688406+010000001" ++ post :=
  (series_path_join_spec "https://api.insee.fr" Option.none Option.none Option.none
      false Option.none).2.2
    { path := "https://api.insee.fr/series/data/SERIES_BDM/001688406+010000001",
      params := [] } (by decide)

/-- C8: `dataframe_to_context` returns the fixed "empty dataset" message
on an empty dataset; otherwise it renders the first `max_rows` rows, falls
back to the plain string conversion of the same truncated subset when
rendering raises, and the truncated subset is at most `max_rows` rows. -/
theorem dataframe_to_context_spec (render : List ObsRecord → Option String)
    (to_str : List ObsRecord → String) (df : List ObsRecord) (max_rows : Nat) :
    (df = [] → dataframe_to_context render to_str df max_rows = emptyDatasetMsg)
  ∧ (∀ s, df ≠ [] → render (df.take max_rows) = some s →
       dataframe_to_context render to_str df max_rows = s)
  ∧ (df ≠ [] → render (df.take max_rows) = Option.none →
       dataframe_to_context render to_str df max_rows = to_str (df.take max_rows))
  ∧ (df.take max_rows).length = min max_rows df.length := by
  refine ⟨?_, ?_, ?_, ?_⟩
  · intro h
    subst h
    rfl
  · intro s hne hr
    simp [dataframe_to_context, hne, hr]
  · intro hne hr
    simp [dataframe_to_context, hne, hr]
  · exact List.length_take _ _

/-- C8 witness: on a 10-row dataset with `max_rows = 5` and a failing
renderer, the fallback sees exactly the first 5 rows. -/
theorem dataframe_to_context_spec_witness :
    dataframe_to_context (fun _ => Option.none) (fun rows => toString rows.length)
      (List.replicate 10 { idbank := PyVal.none, date := PyVal.none, value := PyVal.none })
      5 = "5" :=
  ((dataframe_to_context_spec (fun _ => Option.none) (fun rows => toString rows.length)
      (List.replicate 10 { idbank := PyVal.none, date := PyVal.none, value := PyVal.none })
      5).2.2.1 (by simp) rfl).trans rfl

/-- C9: a 2xx authentication response without a usable `access_token`
(absent or null) makes `get_token` fail its trailing assertion instead of
returning a token; whenever every exchange response does carry a token,
`get_token` returns one. -/
theorem get_token_assert_spec (now : Rat) (resp : TokenResponse) (st : TokenState) :
    (needs_refresh now st = true → resp.access_token = Option.none →
       get_token now resp st = Option.none)
  ∧ (∀ tok, resp.access_token = some tok →
       (get_token now resp st).isSome = true) := by
  constructor
  · intro hr hn
    simp [get_token, hr, obtain_token, hn]
  · intro tok htok
    cases hr : needs_refresh now st with
    | true => simp [get_token, hr, obtain_token, htok]
    | false =>
      have htr : optStrTruthy st.access_token = true := by
        by_contra h
        have h' : optStrTruthy st.access_token = false := by
          cases hh : optStrTruthy st.access_token
          · rfl
          · exact absurd hh h
        simp [needs_refresh, h'] at hr
      cases hst : st.access_token with
      | none =>
        rw [hst] at htr
        simp [optStrTruthy] at htr
      | some s => simp [get_token, hr, hst]

/-- C9 witness: a first call (no token held) whose exchange response has
no `access_token` raises the assertion failure. -/
theorem get_token_assert_spec_witness :
    get_token 0 { access_token := Option.none, expires_in := Option.none }
      { access_token := Option.none, token_expiry := 0 } = Option.none :=
  (get_token_assert_spec 0 { access_token := Option.none, expires_in := Option.none }
      { access_token := Option.none, token_expiry := 0 }).1 rfl rfl

/-- C10 counterexample: in the observation
`{"date": "", "time": "", "value": 1}` the date is present but falsy and
the time is present but falsy, yet the observation is NOT dropped: the
code only tests `date is not None`, and `"" or ""` evaluates to `""`
(which is not `None`), so a record with the empty-string date is
produced. -/
theorem obs_falsy_time_counterexample :
    seriesRecords falsyTimeSerie =
      [{ idbank := PyVal.str "X", date := PyVal.str "", value := PyVal.num 1 }]
  ∧ seriesRecords falsyTimeSerie ≠ [] := by
  refine ⟨rfl, ?_⟩
  rw [show seriesRecords falsyTimeSerie =
      [{ idbank := PyVal.str "X", date := PyVal.str "", value := PyVal.num 1 }] from rfl]
  exact List.cons_ne_nil _ _

/-- C10 (amended): a structured observation with a present-but-falsy
`date` falls back to the `time` field, and the observation is dropped
exactly when that fallback is `None` (`time` absent or null); a present
falsy non-null `time` instead yields a record with that falsy date. In
particular `{"date": "", "value": v}` with no `time` key is silently
dropped. -/
theorem obs_falsy_date_fallback_spec (id : PyVal) (fs : List (String × PyVal)) (v : PyVal) :
    (((PyVal.dict fs).get "date").truthy = false →
       (obsDateValue (PyVal.dict fs)).1 = (PyVal.dict fs).get "time")
  ∧ (((PyVal.dict fs).get "date").truthy = false →
       (PyVal.dict fs).get "time" = PyVal.none →
       seriesRecords (mkSerie id [PyVal.dict fs]) = [])
  ∧ (((PyVal.dict fs).get "date").truthy = false →
       (PyVal.dict fs).get "time" ≠ PyVal.none →
       seriesRecords (mkSerie id [PyVal.dict fs]) =
         [{ idbank := id, date := (PyVal.dict fs).get "time",
            value := (PyVal.dict fs).get "value" }])
  ∧ (seriesRecords (mkSerie id [PyVal.dict [("date", PyVal.str ""), ("value", v)]]) = []) := by
  have hor : ((PyVal.dict fs).get "date").truthy = false →
      pyOr ((PyVal.dict fs).get "date") ((PyVal.dict fs).get "time") =
        (PyVal.dict fs).get "time" := by
    intro h
    simp [pyOr, h]
  refine ⟨?_, ?_, ?_, ?_⟩
  · intro h
    simpa [obsDateValue] using hor h
  · intro h hnone
    exact filterMap_obs_single_none id _ (by simpa [obsDateValue] using (hor h).trans hnone)
  · intro h hne
    exact filterMap_obs_single id _ _ (by simpa [obsDateValue] using hor h) hne
  · exact filterMap_obs_single_none id _ rfl

/-- C10 witness: `{"date": "", "time": null}` is dropped (falsy date,
null time). -/
theorem obs_falsy_date_fallback_spec_witness :
    seriesRecords (mkSerie (PyVal.str "W")
      [PyVal.dict [("date", PyVal.str ""), ("time", PyVal.none)]]) = [] :=
  (obs_falsy_date_fallback_spec (PyVal.str "W")
    [("date", PyVal.str ""), ("time", PyVal.none)] PyVal.none).2.1 rfl rfl
